import Mathlib

/-!
Shallow embedding of the anti-cheat game-session and score-submission core of
the Eigen-Memory server (src/server/storage.ts, routes section: constants,
rateLimitMiddleware, POST /api/games/start handler, POST /api/games handler).

Conventions of the embedding:
- JS millisecond timestamps and all numeric payload fields are modelled as Int
  (they are integral JS numbers in every reachable state).
- The in-memory Maps (gameSessions, userSubmissionTracker, ipGameSubmissions)
  are modelled as association lists with unique keys; Map.get is find?, and
  Map.set / Map.delete are erase-then-append / filter.
- JS Math.round(x) is floor (x + 1/2); Math.round(ms / 1000) on an integral
  number of milliseconds is therefore (ms + 500) / 1000 with Int division
  (Lean's Int division is Euclidean, which coincides with floor division for
  the positive divisor 1000).
- The external persistence collaborator (storage.createGame) is modelled by a
  Boolean parameter persistOk: true means the insert returns, false means it
  throws and control reaches the catch block (HTTP 500).
-/

namespace EigenMemory

/-- Total game length in seconds (GAME_DURATION_SECONDS in storage.ts). -/
def GAME_DURATION_SECONDS : Int := 90

/-- Minimum plausible play time in seconds (MIN_GAME_DURATION_SECONDS). -/
def MIN_GAME_DURATION_SECONDS : Int := 15

/-- Maximum base score (MAX_SCORE). -/
def MAX_SCORE : Int := 800

/-- Maximum number of matched pairs (MAX_MATCHES). -/
def MAX_MATCHES : Int := 8

/-- Per-user submission cooldown in ms (USER_SUBMISSION_COOLDOWN_MS). -/
def USER_SUBMISSION_COOLDOWN_MS : Int := 5000

/-- Maximum session lifetime in ms (SESSION_EXPIRY_MS). -/
def SESSION_EXPIRY_MS : Int := 150000

/-- Cap on concurrently stored sessions per user (MAX_ACTIVE_SESSIONS_PER_USER). -/
def MAX_ACTIVE_SESSIONS_PER_USER : Nat := 3

/-- Hourly per-IP submission quota (MAX_GAMES_PER_IP_PER_HOUR). -/
def MAX_GAMES_PER_IP_PER_HOUR : Nat := 100

/-- Rate-limit window in ms (RATE_LIMIT_WINDOW). -/
def RATE_LIMIT_WINDOW : Int := 60000

/-- Rate-limit request cap per window (RATE_LIMIT_MAX). -/
def RATE_LIMIT_MAX : Nat := 100

/-- One hour in milliseconds, as used by the IP quota filter (3600000). -/
def ONE_HOUR_MS : Int := 3600000

/-- Server-side game session record (interface GameSession in storage.ts). -/
structure GameSession where
  gameId : String
  userId : String
  startedAt : Int
  ip : String
deriving DecidableEq, Repr

/-- Persisted game row as built by the submit handler before createGame
(the sanitized fields of the insert payload). -/
structure GameRecord where
  userId : String
  score : Int
  bonus : Int
  totalPoints : Int
  timeRemaining : Int
  matchesFound : Int
deriving DecidableEq, Repr

/-- Request body of POST /api/games after authentication. gameId is the raw
req.body.gameId (absent models a missing/undefined field); score,
timeRemaining and matchesFound are the integer fields insertGameSchema
requires; schemaOk abstracts the rest of insertGameSchema.safeParse
(field types, presence), which the handler checks after the session gates. -/
structure RawPayload where
  gameId : Option String
  score : Int
  timeRemaining : Int
  matchesFound : Int
  schemaOk : Bool
deriving DecidableEq, Repr

/-- Whole in-memory anti-cheat state of the routes module, plus the list of
rows the external store has persisted (savedGames models the games table). -/
structure ServerState where
  gameSessions : List GameSession
  userSubmissionTracker : List (String × Int)
  ipGameSubmissions : List (String × List Int)
  savedGames : List GameRecord
deriving DecidableEq, Repr

/-- Empty server state (fresh process). -/
def ServerState.empty : ServerState := ⟨[], [], [], []⟩

/-- Map.get on gameSessions: first session stored under the given id. -/
def findSession (l : List GameSession) (gid : String) : Option GameSession :=
  l.find? (fun s => s.gameId == gid)

/-- Map.delete on gameSessions. -/
def eraseSession (l : List GameSession) (gid : String) : List GameSession :=
  l.filter (fun s => s.gameId != gid)

/-- Map.get on an association list keyed by String. -/
def lookupKey {α : Type} (l : List (String × α)) (k : String) : Option α :=
  (l.find? (fun e => e.1 == k)).map (fun e => e.2)

/-- Map.set on an association list keyed by String. -/
def setKey {α : Type} (l : List (String × α)) (k : String) (v : α) :
    List (String × α) :=
  l.filter (fun e => e.1 != k) ++ [(k, v)]

/-- JS Math.round(ms / 1000) for an integral count ms of milliseconds:
round half up, i.e. floor ((ms + 500) / 1000). -/
def jsRoundSeconds (ms : Int) : Int := (ms + 500) / 1000

/-- Outcome of the POST /api/games handler, one constructor per return path. -/
inductive SubmitResult where
  | missingSession
  | invalidOrExpiredSession
  | sessionOwnershipMismatch
  | tooFast
  | sessionExpired
  | ipQuotaExceeded
  | submissionTooFrequent (retryAfterSeconds : Int)
  | invalidGameData
  | storageFailure
  | created (game : GameRecord)
deriving DecidableEq, Repr

/-- Outcome of the POST /api/games/start handler. -/
inductive StartResult where
  | tooManyActiveSessions
  | started (gameId : String) (expiresAt : Int)
deriving DecidableEq, Repr

/-- Sanitization block of the submit handler (storage.ts lines 690-702):
clamp the client-reported values, bound time remaining by the server's own
clock, and derive bonus and total points. -/
def sanitizeRecord (userId : String) (startedAt now : Int) (p : RawPayload) :
    GameRecord :=
  let reportedTimeRemaining :=
    max 0 (min GAME_DURATION_SECONDS p.timeRemaining)
  let sanitizedMatches := max 0 (min MAX_MATCHES p.matchesFound)
  let serverTimeRemaining :=
    max 0 (min GAME_DURATION_SECONDS
      (GAME_DURATION_SECONDS - jsRoundSeconds (now - startedAt)))
  let sanitizedTimeRemaining := min serverTimeRemaining reportedTimeRemaining
  let maxScoreFromMatches := sanitizedMatches * 100
  let sanitizedScore :=
    max 0 (min MAX_SCORE (min maxScoreFromMatches p.score))
  { userId := userId
    score := sanitizedScore
    bonus := sanitizedTimeRemaining * 10
    totalPoints := sanitizedScore + sanitizedTimeRemaining * 10
    timeRemaining := sanitizedTimeRemaining
    matchesFound := sanitizedMatches }

/-- POST /api/games/start handler (storage.ts lines 570-608): count the
caller's stored sessions, reject at the cap, otherwise store a fresh session
started now and answer with its id and expiry. fresh stands for the
generated unique gameId. -/
def start (st : ServerState) (userId ip : String) (now : Int)
    (fresh : String) : StartResult × ServerState :=
  let userActiveSessions :=
    (st.gameSessions.filter (fun s => s.userId == userId)).length
  if userActiveSessions ≥ MAX_ACTIVE_SESSIONS_PER_USER then
    (.tooManyActiveSessions, st)
  else
    (.started fresh (now + SESSION_EXPIRY_MS),
     { st with gameSessions :=
        st.gameSessions ++ [⟨fresh, userId, now, ip⟩] })

/-- Trailing-hour submission timestamps for an IP (storage.ts lines 655-657):
the stored list for the IP, filtered to entries newer than one hour ago. -/
def ipRecentSubmissions (st : ServerState) (ip : String) (now : Int) :
    List Int :=
  ((lookupKey st.ipGameSubmissions ip).getD []).filter
    (fun t => decide (t > now - ONE_HOUR_MS))

/-- Per-user cooldown gate (storage.ts lines 666-667). JS truthiness makes a
stored timestamp 0 falsy, so it skips the gate, hence the t ≠ 0 conjunct. -/
def cooldownActive (st : ServerState) (userId : String) (now : Int) : Bool :=
  match lookupKey st.userSubmissionTracker userId with
  | none => false
  | some t => decide (t ≠ 0) && decide (now - t < USER_SUBMISSION_COOLDOWN_MS)

/-- Retry-after seconds reported by the cooldown rejection (storage.ts line
668): Math.ceil of the remaining cooldown in seconds. -/
def retryAfter (st : ServerState) (userId : String) (now : Int) : Int :=
  (USER_SUBMISSION_COOLDOWN_MS
    - (now - (lookupKey st.userSubmissionTracker userId).getD 0) + 999) / 1000

/-- State after the success tail of the submit handler (storage.ts lines
704-720): record persisted, session deleted, cooldown stamped, and the IP
list replaced by its pruned version extended with now. -/
def successState (st : ServerState) (userId ip gid : String) (now : Int)
    (g : GameRecord) : ServerState :=
  { gameSessions := eraseSession st.gameSessions gid
    userSubmissionTracker := setKey st.userSubmissionTracker userId now
    ipGameSubmissions :=
      setKey st.ipGameSubmissions ip (ipRecentSubmissions st ip now ++ [now])
    savedGames := st.savedGames ++ [g] }

/-- POST /api/games handler (storage.ts lines 611-727), as a function of the
current state, the authenticated caller, the observed IP, the request body,
the current time and the persistence outcome. Each early return of the
handler is one branch; the final branch performs createGame and, on its
success, the session delete and both tracker updates. The elapsed-time
comparisons are stated in milliseconds: elapsedSeconds < 15 and
elapsedSeconds > 150 on the exact rational (now - startedAt) / 1000 are
equivalent to the integer comparisons against 15000 and 150000. -/
def submit (st : ServerState) (userId ip : String) (p : RawPayload)
    (now : Int) (persistOk : Bool) : SubmitResult × ServerState :=
  match p.gameId with
  | none => (.missingSession, st)
  | some gid =>
    match findSession st.gameSessions gid with
    | none => (.invalidOrExpiredSession, st)
    | some session =>
      if session.userId ≠ userId then
        (.sessionOwnershipMismatch, st)
      else if now - session.startedAt < MIN_GAME_DURATION_SECONDS * 1000 then
        (.tooFast, st)
      else if now - session.startedAt > SESSION_EXPIRY_MS then
        (.sessionExpired,
         { st with gameSessions := eraseSession st.gameSessions gid })
      else if (ipRecentSubmissions st ip now).length
          ≥ MAX_GAMES_PER_IP_PER_HOUR then
        (.ipQuotaExceeded, st)
      else if cooldownActive st userId now then
        (.submissionTooFrequent (retryAfter st userId now), st)
      else if ¬ p.schemaOk then
        (.invalidGameData, st)
      else if persistOk then
        (.created (sanitizeRecord userId session.startedAt now p),
         successState st userId ip gid now
           (sanitizeRecord userId session.startedAt now p))
      else
        (.storageFailure, st)

/-- Stored per-key rate-limit record (rateLimitMap entries). -/
structure RateLimitRecord where
  count : Nat
  resetTime : Int
deriving DecidableEq, Repr

/-- Decision of the rate limiter for one request. -/
inductive RateDecision where
  | allow
  | reject
deriving DecidableEq, Repr

/-- Core of rateLimitMiddleware (storage.ts lines 535-558) for one key: given
the stored record for the key (none when absent) and the current time, decide
the request and give the record the map holds afterwards. -/
def rateLimitCheck (record : Option RateLimitRecord) (now : Int) :
    RateDecision × RateLimitRecord :=
  match record with
  | none => (.allow, ⟨1, now + RATE_LIMIT_WINDOW⟩)
  | some r =>
    if r.resetTime < now then
      (.allow, ⟨1, now + RATE_LIMIT_WINDOW⟩)
    else if r.count ≥ RATE_LIMIT_MAX then
      (.reject, r)
    else
      (.allow, ⟨r.count + 1, r.resetTime⟩)

/-- Rate limiter step exactly as the spec words it, for comparison with
rateLimitCheck: the reset branch fires when there is no record or
now ≥ resetTime (the code instead requires resetTime < now strictly). -/
def rateLimitCheckClaim (record : Option RateLimitRecord) (now : Int) :
    RateDecision × RateLimitRecord :=
  match record with
  | none => (.allow, ⟨1, now + RATE_LIMIT_WINDOW⟩)
  | some r =>
    if now ≥ r.resetTime then
      (.allow, ⟨1, now + RATE_LIMIT_WINDOW⟩)
    else if r.count ≥ RATE_LIMIT_MAX then
      (.reject, r)
    else
      (.allow, ⟨r.count + 1, r.resetTime⟩)

/-- Inversion of a successful submit: it found the caller's session, the
elapsed-time window held, the payload passed the schema, persistence
succeeded, and the produced record and state are the sanitized ones. -/
theorem submit_created_elim {st : ServerState} {u ip : String}
    {p : RawPayload} {now : Int} {ok : Bool} {g : GameRecord}
    {st' : ServerState}
    (h : submit st u ip p now ok = (.created g, st')) :
    ∃ gid s, p.gameId = some gid ∧
      findSession st.gameSessions gid = some s ∧
      s.userId = u ∧
      MIN_GAME_DURATION_SECONDS * 1000 ≤ now - s.startedAt ∧
      now - s.startedAt ≤ SESSION_EXPIRY_MS ∧
      (ipRecentSubmissions st ip now).length < MAX_GAMES_PER_IP_PER_HOUR ∧
      cooldownActive st u now = false ∧
      p.schemaOk = true ∧ ok = true ∧
      g = sanitizeRecord u s.startedAt now p ∧
      st' = successState st u ip gid now g := by
  unfold submit at h
  split at h
  · simp at h
  next gid hgid =>
    split at h
    · simp at h
    next s hfind =>
      split at h
      · simp at h
      next hown =>
        split at h
        · simp at h
        next hfast =>
          split at h
          · simp at h
          next hexp =>
            split at h
            · simp at h
            next hquota =>
              split at h
              · simp at h
              next hcool =>
                split at h
                · simp at h
                next hschema =>
                  split at h
                  next hok =>
                    rw [Prod.mk.injEq] at h
                    obtain ⟨h1, h2⟩ := h
                    injection h1 with hg
                    exact ⟨gid, s, hgid, hfind, not_not.mp hown,
                      le_of_not_lt hfast, le_of_not_lt hexp,
                      lt_of_not_le hquota, by simpa using hcool,
                      by simpa using hschema, hok, hg.symm,
                      by rw [← h2, ← hg]⟩
                  next => simp at h

/-- Bridge to the spec's numeric language: the handler's millisecond-level
round is exactly round-half-up of the rational elapsed seconds. -/
theorem jsRoundSeconds_eq_round (ms : Int) :
    jsRoundSeconds ms = round ((ms : ℚ) / 1000) := by
  rw [round_eq, jsRoundSeconds]
  have hcast : (ms : ℚ) / 1000 + 1 / 2 =
      ((ms + 500 : ℤ) : ℚ) / ((1000 : ℕ) : ℚ) := by
    push_cast
    ring
  rw [hcast, Rat.floor_intCast_div_natCast]
  norm_num

/-- Bridge for floors: the floor of the rational elapsed seconds is the
Euclidean millisecond division by 1000. -/
theorem floor_elapsedSeconds (ms : Int) :
    ⌊(ms : ℚ) / 1000⌋ = ms / 1000 := by
  have hcast : (ms : ℚ) / 1000 = (ms : ℚ) / ((1000 : ℕ) : ℚ) := by norm_num
  rw [hcast, Rat.floor_intCast_div_natCast]
  norm_num

/-- Record produced by the sanitization block, field by field. -/
theorem sanitizeRecord_fields (u : String) (startedAt now : Int)
    (p : RawPayload) :
    (sanitizeRecord u startedAt now p).timeRemaining =
      min (max 0 (min GAME_DURATION_SECONDS
            (GAME_DURATION_SECONDS - jsRoundSeconds (now - startedAt))))
          (max 0 (min GAME_DURATION_SECONDS p.timeRemaining)) ∧
    (sanitizeRecord u startedAt now p).matchesFound =
      max 0 (min MAX_MATCHES p.matchesFound) ∧
    (sanitizeRecord u startedAt now p).score =
      max 0 (min MAX_SCORE
        (min ((sanitizeRecord u startedAt now p).matchesFound * 100) p.score)) ∧
    (sanitizeRecord u startedAt now p).bonus =
      (sanitizeRecord u startedAt now p).timeRemaining * 10 ∧
    (sanitizeRecord u startedAt now p).totalPoints =
      (sanitizeRecord u startedAt now p).score +
        (sanitizeRecord u startedAt now p).bonus :=
  ⟨rfl, rfl, rfl, rfl, rfl⟩

/-- Example session used by the concrete test case of the spec. -/
def exSession : GameSession := ⟨"g1", "u", 0, "addr"⟩

/-- Example server state holding just exSession. -/
def exState : ServerState := ⟨[exSession], [], [], []⟩

/-- Example payload of the spec's concrete case:
score 999999, timeRemaining 90, matchesFound 2. -/
def exPayload : RawPayload := ⟨some "g1", 999999, 90, 2, true⟩

/-- Record the spec expects for the concrete case: score 200, bonus 700,
totalPoints 900, timeRemaining 70, matchesFound 2. -/
def exGame : GameRecord := ⟨"u", 200, 700, 900, 70, 2⟩

/-- State after the concrete successful submit: session gone, trackers
stamped at 20000, record persisted. -/
def exPostState : ServerState :=
  ⟨[], [("u", 20000)], [("addr", [20000])], [exGame]⟩

/-- C1: for every successful submit, the persisted timeRemaining equals
min(serverTimeRemaining, reportedTimeRemaining) with
serverTimeRemaining = clamp(GAME_DURATION_SECONDS - round(elapsedSeconds),
0, GAME_DURATION_SECONDS) computed from the server-observed elapsed time
since the session's startedAt and reportedTimeRemaining =
clamp(client timeRemaining, 0, GAME_DURATION_SECONDS); the persisted bonus
is that time times 10 and the persisted totalPoints is score plus bonus. -/
theorem submit_persists_sanitized_time_bonus_total
    {st : ServerState} {u ip : String} {p : RawPayload} {now : Int}
    {ok : Bool} {g : GameRecord} {st' : ServerState} {gid : String}
    {s : GameSession}
    (hgid : p.gameId = some gid)
    (hfind : findSession st.gameSessions gid = some s)
    (h : submit st u ip p now ok = (.created g, st')) :
    g.timeRemaining =
      min (max 0 (min GAME_DURATION_SECONDS
            (GAME_DURATION_SECONDS -
              round (((now - s.startedAt : ℤ) : ℚ) / 1000))))
          (max 0 (min GAME_DURATION_SECONDS p.timeRemaining)) ∧
    g.bonus = g.timeRemaining * 10 ∧
    g.totalPoints = g.score + g.bonus := by
  obtain ⟨gid', s', hgid', hfind', -, -, -, -, -, -, -, hg, -⟩ :=
    submit_created_elim h
  rw [hgid] at hgid'
  obtain rfl := Option.some.inj hgid'
  rw [hfind] at hfind'
  obtain rfl := Option.some.inj hfind'
  subst hg
  obtain ⟨h1, -, -, h4, h5⟩ := sanitizeRecord_fields u s.startedAt now p
  rw [← jsRoundSeconds_eq_round]
  exact ⟨h1, h4, h5⟩

/-- Witness for the C1 theorem at the spec's concrete inputs. -/
theorem submit_persists_sanitized_time_bonus_total_witness :
    exGame.timeRemaining =
      min (max 0 (min GAME_DURATION_SECONDS
            (GAME_DURATION_SECONDS -
              round (((20000 - exSession.startedAt : ℤ) : ℚ) / 1000))))
          (max 0 (min GAME_DURATION_SECONDS exPayload.timeRemaining)) ∧
    exGame.bonus = exGame.timeRemaining * 10 ∧
    exGame.totalPoints = exGame.score + exGame.bonus :=
  @submit_persists_sanitized_time_bonus_total exState "u" "addr" exPayload
    20000 true exGame exPostState "g1" exSession rfl rfl rfl

/-- Bounds the sanitization block guarantees whatever the client reported. -/
theorem sanitizeRecord_bounds (u : String) (startedAt now : Int)
    (p : RawPayload) :
    0 ≤ (sanitizeRecord u startedAt now p).matchesFound ∧
    (sanitizeRecord u startedAt now p).matchesFound ≤ MAX_MATCHES ∧
    (sanitizeRecord u startedAt now p).score ≤
      (sanitizeRecord u startedAt now p).matchesFound * 100 ∧
    0 ≤ (sanitizeRecord u startedAt now p).score ∧
    (sanitizeRecord u startedAt now p).score ≤ MAX_SCORE ∧
    0 ≤ (sanitizeRecord u startedAt now p).timeRemaining ∧
    (sanitizeRecord u startedAt now p).timeRemaining
      ≤ GAME_DURATION_SECONDS := by
  unfold sanitizeRecord MAX_MATCHES MAX_SCORE GAME_DURATION_SECONDS
    jsRoundSeconds
  refine ⟨?_, ?_, ?_, ?_, ?_, ?_, ?_⟩ <;> simp only [] <;> omega

/-- C2: every persisted record satisfies 0 ≤ matchesFound ≤ 8,
score ≤ matchesFound × 100, 0 ≤ score ≤ MAX_SCORE and
0 ≤ timeRemaining ≤ GAME_DURATION_SECONDS, regardless of what the client
reported; and on the spec's concrete input (score 999999, matchesFound 2,
timeRemaining 90 at true elapsed 20 s) the persisted record is exactly
score 200, bonus 700, totalPoints 900, timeRemaining 70, matchesFound 2. -/
theorem submit_record_invariants :
    (∀ (st : ServerState) (u ip : String) (p : RawPayload) (now : Int)
        (ok : Bool) (g : GameRecord) (st' : ServerState),
      submit st u ip p now ok = (.created g, st') →
        0 ≤ g.matchesFound ∧ g.matchesFound ≤ MAX_MATCHES ∧
        g.score ≤ g.matchesFound * 100 ∧ 0 ≤ g.score ∧
        g.score ≤ MAX_SCORE ∧ 0 ≤ g.timeRemaining ∧
        g.timeRemaining ≤ GAME_DURATION_SECONDS) ∧
    submit exState "u" "addr" exPayload 20000 true =
      (.created exGame,
       ⟨[], [("u", 20000)], [("addr", [20000])], [exGame]⟩) := by
  constructor
  · intro st u ip p now ok g st' h
    obtain ⟨gid, s, -, -, -, -, -, -, -, -, -, hg, -⟩ :=
      submit_created_elim h
    subst hg
    exact sanitizeRecord_bounds u s.startedAt now p
  · decide

/-- Witness for the C2 theorem: its invariant part applied at the concrete
record of the spec's test case. -/
theorem submit_record_invariants_witness :
    0 ≤ exGame.matchesFound ∧ exGame.matchesFound ≤ MAX_MATCHES ∧
    exGame.score ≤ exGame.matchesFound * 100 ∧ 0 ≤ exGame.score ∧
    exGame.score ≤ MAX_SCORE ∧ 0 ≤ exGame.timeRemaining ∧
    exGame.timeRemaining ≤ GAME_DURATION_SECONDS :=
  submit_record_invariants.1 exState "u" "addr" exPayload 20000 true exGame
    ⟨[], [("u", 20000)], [("addr", [20000])], [exGame]⟩ (by decide)

/-- Deleting a session id from the store makes its lookup fail. -/
theorem findSession_eraseSession (l : List GameSession) (gid : String) :
    findSession (eraseSession l gid) gid = none := by
  rw [findSession, List.find?_eq_none]
  intro s hs
  rw [eraseSession, List.mem_filter] at hs
  have hne : s.gameId ≠ gid := by simpa [bne_iff_ne] using hs.2
  simp [hne]

/-- C3: a session is consumable exactly once. A successful submit removes
the session from the store, and any later submit presenting the same
sessionId fails at the step-2 lookup with InvalidOrExpiredSession and
changes nothing, so no second record is persisted for that session. -/
theorem submit_session_one_time_use
    {st : ServerState} {u ip : String} {p : RawPayload} {now : Int}
    {ok : Bool} {g : GameRecord} {st' : ServerState} {gid : String}
    (hgid : p.gameId = some gid)
    (h : submit st u ip p now ok = (.created g, st'))
    (u2 ip2 : String) (p2 : RawPayload) (now2 : Int) (ok2 : Bool)
    (hgid2 : p2.gameId = some gid) :
    findSession st'.gameSessions gid = none ∧
    submit st' u2 ip2 p2 now2 ok2 = (.invalidOrExpiredSession, st') := by
  obtain ⟨gid', s, hgid', -, -, -, -, -, -, -, -, -, hst⟩ :=
    submit_created_elim h
  rw [hgid] at hgid'
  obtain rfl := Option.some.inj hgid'
  have hnone : findSession st'.gameSessions gid = none := by
    rw [hst]
    exact findSession_eraseSession st.gameSessions gid
  refine ⟨hnone, ?_⟩
  unfold submit
  simp only [hgid2, hnone]

/-- Witness for the C3 theorem: consuming the example session and replaying
the same sessionId. -/
theorem submit_session_one_time_use_witness :
    findSession
      (⟨[], [("u", 20000)], [("addr", [20000])],
        [exGame]⟩ : ServerState).gameSessions "g1" = none ∧
    submit (⟨[], [("u", 20000)], [("addr", [20000])], [exGame]⟩ : ServerState)
        "u" "addr" exPayload 25000 true =
      (.invalidOrExpiredSession,
       ⟨[], [("u", 20000)], [("addr", [20000])], [exGame]⟩) :=
  @submit_session_one_time_use exState "u" "addr" exPayload 20000 true
    exGame exPostState "g1" rfl (by decide) "u" "addr" exPayload 25000
    true rfl

/-- C4: with the caller's session found, the submit fails with TooFast
exactly when elapsed < MIN_GAME_DURATION_SECONDS (so it passes that check at
exactly 15 s) and fails with SessionExpired exactly when elapsed exceeds
SESSION_EXPIRY_MS (so the boundary is inclusive); SessionExpired deletes the
session while TooFast leaves the whole state unchanged. The comparisons are
in milliseconds: elapsedSeconds < 15 iff elapsedMs < 15000 and
elapsedSeconds > 150 iff elapsedMs > 150000, exactly. -/
theorem submit_elapsed_time_gates
    {st : ServerState} {u ip : String} {p : RawPayload} {now : Int}
    {ok : Bool} {gid : String} {s : GameSession}
    (hgid : p.gameId = some gid)
    (hfind : findSession st.gameSessions gid = some s)
    (hown : s.userId = u) :
    ((submit st u ip p now ok).1 = .tooFast ↔
      now - s.startedAt < MIN_GAME_DURATION_SECONDS * 1000) ∧
    ((submit st u ip p now ok).1 = .sessionExpired ↔
      now - s.startedAt > SESSION_EXPIRY_MS) ∧
    ((submit st u ip p now ok).1 = .tooFast →
      (submit st u ip p now ok).2 = st) ∧
    ((submit st u ip p now ok).1 = .sessionExpired →
      (submit st u ip p now ok).2 =
        { st with gameSessions := eraseSession st.gameSessions gid }) := by
  have ho : ¬ (s.userId ≠ u) := fun hne => hne hown
  unfold submit
  simp only [hgid, hfind, if_neg ho]
  by_cases hfast : now - s.startedAt < MIN_GAME_DURATION_SECONDS * 1000
  · simp only [if_pos hfast]
    refine ⟨by simp [hfast], ?_, by simp, by simp⟩
    constructor
    · intro hc
      exact absurd hc (by simp)
    · intro hgt
      exfalso
      unfold MIN_GAME_DURATION_SECONDS at hfast
      unfold SESSION_EXPIRY_MS at hgt
      omega
  · by_cases hexp : now - s.startedAt > SESSION_EXPIRY_MS
    · simp only [if_neg hfast, if_pos hexp]
      exact ⟨by simp [hfast], by simp [hexp], by simp, by simp⟩
    · simp only [if_neg hfast, if_neg hexp]
      refine ⟨⟨?_, fun hc => absurd hc hfast⟩,
        ⟨?_, fun hc => absurd hc hexp⟩, ?_, ?_⟩ <;>
        (intro hc; exfalso; revert hc; (repeat' split) <;> simp)

/-- Witness for the C4 theorem at the example session and a 20 s elapsed
time. -/
theorem submit_elapsed_time_gates_witness :
    ((submit exState "u" "addr" exPayload 20000 true).1 = .tooFast ↔
      20000 - exSession.startedAt < MIN_GAME_DURATION_SECONDS * 1000) ∧
    ((submit exState "u" "addr" exPayload 20000 true).1 = .sessionExpired ↔
      20000 - exSession.startedAt > SESSION_EXPIRY_MS) ∧
    ((submit exState "u" "addr" exPayload 20000 true).1 = .tooFast →
      (submit exState "u" "addr" exPayload 20000 true).2 = exState) ∧
    ((submit exState "u" "addr" exPayload 20000 true).1 = .sessionExpired →
      (submit exState "u" "addr" exPayload 20000 true).2 =
        { exState with
            gameSessions := eraseSession exState.gameSessions "g1" }) :=
  @submit_elapsed_time_gates exState "u" "addr" exPayload 20000 true
    "g1" exSession rfl rfl rfl

/-- C5: when the presented sessionId is found but belongs to another user,
the submit fails with SessionOwnershipMismatch for every payload — the
ownership check runs before payload schema validation (the payload here is
arbitrary, including schemaOk = false) — and the state, sessions and both
trackers included, is returned unchanged. -/
theorem submit_ownership_mismatch
    {st : ServerState} {u ip : String} {p : RawPayload} {now : Int}
    {ok : Bool} {gid : String} {s : GameSession}
    (hgid : p.gameId = some gid)
    (hfind : findSession st.gameSessions gid = some s)
    (hneq : s.userId ≠ u) :
    submit st u ip p now ok = (.sessionOwnershipMismatch, st) := by
  unfold submit
  simp only [hgid, hfind, if_pos hneq]

/-- Witness for the C5 theorem: a foreign caller with an invalid payload. -/
theorem submit_ownership_mismatch_witness :
    submit exState "attacker" "addr"
        (⟨some "g1", 5, 5, 5, false⟩ : RawPayload) 20000 true =
      (.sessionOwnershipMismatch, exState) :=
  @submit_ownership_mismatch exState "attacker" "addr"
    ⟨some "g1", 5, 5, 5, false⟩ 20000 true "g1" exSession rfl rfl
    (by decide)

/-- State whose three stored sessions for user u are all expired at time
1000000 (startedAt 0, so elapsed 1000 s > 150 s) but not yet swept. -/
def staleState : ServerState :=
  ⟨[⟨"e1", "u", 0, "addr"⟩, ⟨"e2", "u", 0, "addr"⟩, ⟨"e3", "u", 0, "addr"⟩],
   [], [], []⟩

/-- C6 counterexample: at time 1000000 every stored session of user u in
staleState is expired, so the user has zero live (unexpired) sessions, yet
start still rejects with TooManyActiveSessions — the handler counts stored
sessions, not live ones. -/
theorem start_counts_stale_sessions :
    (∀ s ∈ staleState.gameSessions,
      (1000000 : Int) - s.startedAt > SESSION_EXPIRY_MS) ∧
    (start staleState "u" "addr" 1000000 "fresh").1 =
      .tooManyActiveSessions := by
  decide

/-- C6 (amended): start rejects with TooManyActiveSessions exactly when the
caller already has at least MAX_ACTIVE_SESSIONS_PER_USER sessions stored in
the session store — expired sessions the sweep has not yet removed count
too — and otherwise appends a fresh session and returns its id with
expiresAt = startedAt + SESSION_EXPIRY_MS; in particular four starts in
immediate succession for one user make the fourth call fail. -/
theorem start_session_cap :
    (∀ (st : ServerState) (u ip : String) (now : Int) (fresh : String),
      ((start st u ip now fresh).1 = .tooManyActiveSessions ↔
        (st.gameSessions.filter (fun s => s.userId == u)).length
          ≥ MAX_ACTIVE_SESSIONS_PER_USER)) ∧
    (∀ (st : ServerState) (u ip : String) (now : Int) (fresh : String),
      (st.gameSessions.filter (fun s => s.userId == u)).length
          < MAX_ACTIVE_SESSIONS_PER_USER →
      start st u ip now fresh =
        (.started fresh (now + SESSION_EXPIRY_MS),
         { st with gameSessions :=
            st.gameSessions ++ [⟨fresh, u, now, ip⟩] })) ∧
    ((start ((start ((start ((start ServerState.empty
        "u" "addr" 0 "a").2) "u" "addr" 1 "b").2) "u" "addr" 2 "c").2)
        "u" "addr" 3 "d").1 = .tooManyActiveSessions) := by
  refine ⟨?_, ?_, by decide⟩
  · intro st u ip now fresh
    unfold start
    by_cases hc : (st.gameSessions.filter (fun s => s.userId == u)).length
        ≥ MAX_ACTIVE_SESSIONS_PER_USER
    · simp only [if_pos hc]
      exact ⟨fun _ => hc, fun _ => trivial⟩
    · simp only [if_neg hc]
      exact ⟨fun h => absurd h (by simp), fun h => absurd h hc⟩
  · intro st u ip now fresh hlt
    unfold start
    simp only [if_neg (not_le_of_lt hlt)]

/-- Witness for the C6 amended theorem: first start from the empty state. -/
theorem start_session_cap_witness :
    start ServerState.empty "u" "addr" 0 "a" =
      (.started "a" SESSION_EXPIRY_MS,
       { ServerState.empty with
          gameSessions := [⟨"a", "u", 0, "addr"⟩] }) := by
  have h := start_session_cap.2.1 ServerState.empty "u" "addr" 0 "a"
    (by decide)
  simpa using h

/-- Session submitted long after its nominal game duration ran out
(elapsed 100 s, still inside the 150 s session lifetime). -/
def lateSession : GameSession := ⟨"g2", "u", 0, "addr"⟩

/-- State holding just lateSession. -/
def lateState : ServerState := ⟨[lateSession], [], [], []⟩

/-- Payload submitted with lateSession: a full clear with full claimed
time. -/
def latePayload : RawPayload := ⟨some "g2", 800, 90, 8, true⟩

/-- Record persisted for latePayload at elapsed 100 s: time clamped to 0. -/
def lateGame : GameRecord := ⟨"u", 800, 0, 800, 0, 8⟩

/-- C7 counterexample: at server-observed elapsed time 100 s the submission
is still accepted (the session lives 150 s) and the persisted timeRemaining
is 0, but GAME_DURATION_SECONDS - floor(elapsedSeconds) = 90 - 100 = -10,
so the claimed bound timeRemaining ≤ 90 - floor(elapsedSeconds) fails. -/
theorem submit_time_bound_fails_late :
    (submit lateState "u" "addr" latePayload 100000 true).1 =
      .created lateGame ∧
    lateGame.timeRemaining = 0 ∧
    ¬ (lateGame.timeRemaining ≤ GAME_DURATION_SECONDS -
        ⌊((100000 - lateSession.startedAt : ℤ) : ℚ) / 1000⌋) := by
  have hfl : ⌊((100000 - lateSession.startedAt : ℤ) : ℚ) / 1000⌋ =
      (100 : ℤ) := by
    rw [floor_elapsedSeconds]
    decide
  refine ⟨by decide, rfl, ?_⟩
  rw [hfl]
  decide

/-- C7 (amended): for every accepted submission the persisted timeRemaining
is at most max(0, GAME_DURATION_SECONDS - floor(elapsedSeconds)) — the
server bound dominates whatever remaining time the client claims, except
that it never goes below zero (for elapsed times beyond the game duration
the stored value is 0 while the claimed bound would be negative). -/
theorem submit_time_server_bound
    {st : ServerState} {u ip : String} {p : RawPayload} {now : Int}
    {ok : Bool} {g : GameRecord} {st' : ServerState} {gid : String}
    {s : GameSession}
    (hgid : p.gameId = some gid)
    (hfind : findSession st.gameSessions gid = some s)
    (h : submit st u ip p now ok = (.created g, st')) :
    g.timeRemaining ≤
      max 0 (GAME_DURATION_SECONDS -
        ⌊((now - s.startedAt : ℤ) : ℚ) / 1000⌋) := by
  obtain ⟨gid', s', hgid', hfind', -, -, -, -, -, -, -, hg, -⟩ :=
    submit_created_elim h
  rw [hgid] at hgid'
  obtain rfl := Option.some.inj hgid'
  rw [hfind] at hfind'
  obtain rfl := Option.some.inj hfind'
  subst hg
  rw [floor_elapsedSeconds]
  unfold sanitizeRecord GAME_DURATION_SECONDS jsRoundSeconds
  simp only
  omega

/-- Witness for the C7 amended theorem at the spec's concrete 20 s case. -/
theorem submit_time_server_bound_witness :
    exGame.timeRemaining ≤
      max 0 (GAME_DURATION_SECONDS -
        ⌊((20000 - exSession.startedAt : ℤ) : ℚ) / 1000⌋) :=
  @submit_time_server_bound exState "u" "addr" exPayload 20000 true
    exGame exPostState "g1" exSession rfl rfl rfl

/-- C8 counterexample: at now exactly equal to the stored resetTime with a
full window (count = RATE_LIMIT_MAX), the spec's step 1 (reset when
now ≥ resetTime) would reset and allow, but the code's condition is the
strict resetTime < now, so it falls through to step 2 and rejects. -/
theorem rateLimitCheck_boundary_differs :
    rateLimitCheck (some ⟨100, 5000⟩) 5000 =
      (.reject, ⟨100, 5000⟩) ∧
    rateLimitCheckClaim (some ⟨100, 5000⟩) 5000 =
      (.allow, ⟨1, 5000 + RATE_LIMIT_WINDOW⟩) := by
  decide

/-- C8 (amended): the limiter follows the three-step algorithm with a
strict window test — reset to count 1 and allow when there is no record or
resetTime < now (not now ≥ resetTime); otherwise reject when
count ≥ RATE_LIMIT_MAX; otherwise increment and allow. A key that made
RATE_LIMIT_MAX requests and waits past the window is allowed again: the
last conjunct replays 100 requests at time 0 and one more at 60001. -/
theorem rateLimitCheck_algorithm :
    (∀ now : Int, rateLimitCheck none now =
      (.allow, ⟨1, now + RATE_LIMIT_WINDOW⟩)) ∧
    (∀ (r : RateLimitRecord) (now : Int), r.resetTime < now →
      rateLimitCheck (some r) now = (.allow, ⟨1, now + RATE_LIMIT_WINDOW⟩)) ∧
    (∀ (r : RateLimitRecord) (now : Int), ¬ r.resetTime < now →
      r.count ≥ RATE_LIMIT_MAX →
      rateLimitCheck (some r) now = (.reject, r)) ∧
    (∀ (r : RateLimitRecord) (now : Int), ¬ r.resetTime < now →
      r.count < RATE_LIMIT_MAX →
      rateLimitCheck (some r) now = (.allow, ⟨r.count + 1, r.resetTime⟩)) ∧
    ((List.replicate RATE_LIMIT_MAX (0 : Int)).foldl
        (fun r t => some (rateLimitCheck r t).2) none =
      some ⟨100, 60000⟩ ∧
     (rateLimitCheck (some ⟨100, 60000⟩) 60001).1 = .allow) := by
  refine ⟨fun now => rfl, ?_, ?_, ?_,
    by set_option maxRecDepth 4000 in decide⟩
  · intro r now hlt
    unfold rateLimitCheck
    simp only [if_pos hlt]
  · intro r now hge hcnt
    unfold rateLimitCheck
    simp only [if_neg hge, if_pos hcnt]
  · intro r now hge hcnt
    unfold rateLimitCheck
    simp only [if_neg hge, if_neg (not_le_of_lt hcnt)]

/-- Witness for the C8 amended theorem: a full record one past its window
resets and allows. -/
theorem rateLimitCheck_algorithm_witness :
    rateLimitCheck (some ⟨100, 60000⟩) 60001 =
      (.allow, ⟨1, 60001 + RATE_LIMIT_WINDOW⟩) :=
  rateLimitCheck_algorithm.2.1 ⟨100, 60000⟩ 60001 (by decide)

/-- C9: the per-user cooldown timestamp and the per-IP hourly list change
only when a submission fully succeeds; every rejected or failed submit
returns them exactly as they were. -/
theorem submit_trackers_unchanged_on_failure
    {st : ServerState} {u ip : String} {p : RawPayload} {now : Int}
    {ok : Bool} {r : SubmitResult} {st' : ServerState}
    (h : submit st u ip p now ok = (r, st'))
    (hr : ∀ g, r ≠ SubmitResult.created g) :
    st'.userSubmissionTracker = st.userSubmissionTracker ∧
    st'.ipGameSubmissions = st.ipGameSubmissions := by
  unfold submit at h
  repeat' split at h
  all_goals
    first
      | (injection h with h1 h2; subst h2; exact ⟨rfl, rfl⟩)
      | (injection h with h1 h2; subst h1; exact absurd rfl (hr _))

/-- Witness for the C9 theorem: a too-fast submit leaves both trackers
untouched. -/
theorem submit_trackers_unchanged_on_failure_witness :
    exState.userSubmissionTracker = exState.userSubmissionTracker ∧
    exState.ipGameSubmissions = exState.ipGameSubmissions :=
  @submit_trackers_unchanged_on_failure exState "u" "addr" exPayload
    1000 true .tooFast exState (by decide) (fun g hc => by cases hc)

/-- C10: if the persistence call throws during a submit that would otherwise
succeed, the handler reaches the catch block (HTTP 500, storageFailure here)
with no anti-cheat state change at all — the session stays in the store and
neither tracker moves, because the delete and both tracker updates are
sequenced after a successful persist — and retrying the same sessionId
against a working store then succeeds with the same record. -/
theorem submit_persist_failure_no_side_effects
    {st : ServerState} {u ip : String} {p : RawPayload} {now : Int}
    {g : GameRecord} {st' : ServerState}
    (h : submit st u ip p now true = (.created g, st')) :
    submit st u ip p now false = (.storageFailure, st) ∧
    submit (submit st u ip p now false).2 u ip p now true =
      (.created g, st') := by
  obtain ⟨gid, s, hgid, hfind, hown, hfast, hexp, hquota, hcool, hschema,
    -, -, -⟩ := submit_created_elim h
  have hfail : submit st u ip p now false = (.storageFailure, st) := by
    unfold submit
    simp only [hgid, hfind, if_neg (not_not_intro hown),
      if_neg (not_lt_of_le hfast), if_neg (not_lt_of_le hexp),
      if_neg (not_le_of_lt hquota),
      if_neg (by simp [hcool] : ¬ cooldownActive st u now = true),
      if_neg (by simp [hschema] : ¬ ¬ p.schemaOk = true)]
    simp
  refine ⟨hfail, ?_⟩
  rw [hfail]
  exact h

/-- Witness for the C10 theorem at the spec's concrete 20 s case. -/
theorem submit_persist_failure_no_side_effects_witness :
    submit exState "u" "addr" exPayload 20000 false =
      (.storageFailure, exState) ∧
    submit (submit exState "u" "addr" exPayload 20000 false).2
        "u" "addr" exPayload 20000 true =
      (.created exGame,
       ⟨[], [("u", 20000)], [("addr", [20000])], [exGame]⟩) :=
  submit_persist_failure_no_side_effects (by decide)

end EigenMemory
